import Mathlib

/-!
Shallow embedding of `src/time_utils.py` (business-hours calendar engine).

Conventions of the embedding:
* A Python `datetime.time` value becomes `PyTime` (hour, minute, second,
  microsecond).  Python compares `time` objects lexicographically on these
  four fields, which `timeLt` mirrors.
* A naive Python `datetime` becomes `Naive`: `day` is the proleptic
  Gregorian ordinal of the date minus one (so `day % 7` is Python's
  `weekday()`, Monday = 0) and `tod` is the number of microseconds since
  midnight.  Python compares datetimes field by field, which is exactly
  the lexicographic order on `(day, tod)`.
* `timedelta` values are integers counting microseconds.
* The module-global `_CONFIG` mutable record is passed explicitly: every
  function that reads the global takes the configuration value as its
  first argument (the value the global holds during the call).
-/

/-- Embedding of Python `datetime.time`: hour, minute, second, microsecond. -/
structure PyTime where
  hour : Nat
  minute : Nat
  second : Nat
  microsecond : Nat
deriving DecidableEq, Repr

/-- Python `time.__lt__`: lexicographic comparison on
(hour, minute, second, microsecond). -/
def timeLt (a b : PyTime) : Bool :=
  decide (a.hour < b.hour ∨ (a.hour = b.hour ∧
    (a.minute < b.minute ∨ (a.minute = b.minute ∧
      (a.second < b.second ∨ (a.second = b.second ∧
        a.microsecond < b.microsecond))))))

/-- Python `time.__ge__`; on the total lexicographic order `a >= b`
is the negation of `a < b`. -/
def timeGe (a b : PyTime) : Bool :=
  !(timeLt a b)

/-- Embedding of the `BusinessHoursConfig` dataclass of `time_utils.py`:
fields `start` and `end`. -/
structure BusinessHoursConfig where
  start : PyTime
  «end» : PyTime
deriving DecidableEq, Repr

/-- The module-level default `_CONFIG = BusinessHoursConfig()`:
start 07:00, end 22:00. -/
def _CONFIG : BusinessHoursConfig :=
  { start := ⟨7, 0, 0, 0⟩, «end» := ⟨22, 0, 0, 0⟩ }

/-- Embedding of `get_business_start`: returns `_CONFIG.start`
(the configuration value is passed explicitly). -/
def get_business_start (cfg : BusinessHoursConfig) : PyTime :=
  cfg.start

/-- Embedding of `get_business_end`: returns `_CONFIG.end`. -/
def get_business_end (cfg : BusinessHoursConfig) : PyTime :=
  cfg.«end»

/-- Embedding of `set_business_hours`: raises `ValueError` when
`start >= end`, otherwise stores the new pair.  Raising is modelled by
`Except.error`; the returned configuration is the state of the global
after the call. -/
def set_business_hours (start «end» : PyTime) (_cfg : BusinessHoursConfig) :
    Except String BusinessHoursConfig :=
  if timeGe start «end» then
    .error "business start must be before business end"
  else
    .ok { start := start, «end» := «end» }

/-- Python exception semantics for the mutation of the global: when
`set_business_hours` raises, the global keeps its previous value; the
second component records the raised message. -/
def runSetBusinessHours (cfg : BusinessHoursConfig) (start «end» : PyTime) :
    BusinessHoursConfig × Option String :=
  match set_business_hours start «end» cfg with
  | .error m => (cfg, some m)
  | .ok c => (c, none)

/-- A configuration is valid when `start < end`, the invariant the setter
enforces. -/
def validConfig (cfg : BusinessHoursConfig) : Bool :=
  timeLt cfg.start cfg.«end»

/-- First of the two separate field assignments performed by
`set_business_hours` after its guard: `_CONFIG.start = start`. -/
def setBusinessHoursStep1 (cfg : BusinessHoursConfig) (start : PyTime) :
    BusinessHoursConfig :=
  { cfg with start := start }

/-- Second of the two separate field assignments performed by
`set_business_hours`: `_CONFIG.end = end`. -/
def setBusinessHoursStep2 (cfg : BusinessHoursConfig) («end» : PyTime) :
    BusinessHoursConfig :=
  { cfg with «end» := «end» }

/-- Microseconds in one calendar day. -/
def usPerDay : Nat := 86400000000

/-- Embedding of a naive Python `datetime`: `day` is the proleptic
Gregorian ordinal of the date minus one (so `day % 7` is `weekday()`,
Monday = 0), `tod` is microseconds since midnight. -/
structure Naive where
  day : Int
  tod : Nat
deriving DecidableEq, Repr

/-- Python `datetime.__lt__` for naive datetimes: lexicographic on
(date, time of day). -/
def nlt (a b : Naive) : Bool :=
  decide (a.day < b.day ∨ (a.day = b.day ∧ a.tod < b.tod))

/-- Python `datetime.__le__` for naive datetimes. -/
def nle (a b : Naive) : Bool :=
  decide (a.day < b.day ∨ (a.day = b.day ∧ a.tod ≤ b.tod))

/-- Python `min(a, b)` on datetimes: returns `a` when `a <= b`. -/
def nmin (a b : Naive) : Naive :=
  if nle a b then a else b

/-- Python `b - a` on naive datetimes, as a `timedelta` in microseconds. -/
def nsub (b a : Naive) : Int :=
  (b.day - a.day) * (usPerDay : Int) + (b.tod : Int) - (a.tod : Int)

/-- Python `datetime.weekday()`: Monday = 0 .. Sunday = 6. -/
def weekday (d : Naive) : Int :=
  d.day % 7

/-- Time of day, in microseconds, of
`replace(hour=t.hour, minute=t.minute, second=0, microsecond=0)`:
the second and microsecond of the configured time are discarded, exactly
as in the source. -/
def todOfHM (t : PyTime) : Nat :=
  (t.hour * 3600 + t.minute * 60) * 1000000

/-- Embedding of `_next_business_start`: add one calendar day, then
replace the time portion with the configured business start
(seconds and microseconds zeroed). -/
def _next_business_start (cfg : BusinessHoursConfig) (dt : Naive) : Naive :=
  { day := dt.day + 1, tod := todOfHM (get_business_start cfg) }

/-- The `while current < end` loop of `business_hours_breakdown`, with an
explicit fuel bounding the number of iterations.  Every iteration either
ends the loop or replaces `current` by `_next_business_start` of a value
on the same calendar day, advancing `day` by exactly one, so
`end.day + 1 - start.day` iterations always suffice; the wrapper
`business_hours_breakdown` supplies that bound. -/
def businessLoop (cfg : BusinessHoursConfig) (endDt : Naive) :
    Nat → Naive → List (Naive × Naive)
  | 0, _ => []
  | fuel + 1, current =>
    if nlt current endDt then
      if 5 ≤ weekday current then
        businessLoop cfg endDt fuel (_next_business_start cfg current)
      else
        let dayStart : Naive :=
          { day := current.day, tod := todOfHM (get_business_start cfg) }
        let dayEnd : Naive :=
          { day := current.day, tod := todOfHM (get_business_end cfg) }
        let c := if nlt current dayStart then dayStart else current
        if nle dayEnd c then
          businessLoop cfg endDt fuel (_next_business_start cfg c)
        else
          (c, nmin dayEnd endDt) ::
            businessLoop cfg endDt fuel (_next_business_start cfg c)
    else []

/-- Embedding of `business_hours_breakdown`: the list of business-hour
segments between `start` and `end`, under configuration `cfg`. -/
def business_hours_breakdown (cfg : BusinessHoursConfig)
    (start «end» : Naive) : List (Naive × Naive) :=
  businessLoop cfg «end» ((«end».day + 1 - start.day).toNat) start

/-- Embedding of `business_hours_delta`: `timedelta(0)` when
`start >= end`, otherwise the sum of the segment lengths of the
breakdown, in microseconds. -/
def business_hours_delta (cfg : BusinessHoursConfig)
    (start «end» : Naive) : Int :=
  if nle «end» start then 0
  else
    (business_hours_breakdown cfg start «end»).foldl
      (fun total seg => total + nsub seg.2 seg.1) 0

/-- Embedding of `hours_breakdown`: `(0, 0)` when `start >= end`,
otherwise the pair (business duration, total minus business duration),
in microseconds. -/
def hours_breakdown (cfg : BusinessHoursConfig)
    (start «end» : Naive) : Int × Int :=
  if nle «end» start then (0, 0)
  else
    (business_hours_delta cfg start «end»,
      nsub «end» start - business_hours_delta cfg start «end»)

example : business_hours_breakdown _CONFIG ⟨738889, 57600000000⟩ ⟨738892, 36000000000⟩ =
    [(⟨738889, 57600000000⟩, ⟨738889, 79200000000⟩),
     (⟨738892, 25200000000⟩, ⟨738892, 36000000000⟩)] := by decide

example : business_hours_breakdown _CONFIG ⟨738889, 18000000000⟩ ⟨738889, 21600000000⟩ =
    [(⟨738889, 25200000000⟩, ⟨738889, 21600000000⟩)] := by decide

example : business_hours_delta _CONFIG ⟨738889, 18000000000⟩ ⟨738889, 21600000000⟩ =
    -3600000000 := by decide

/-- The loop of `business_hours_breakdown` as the source actually runs it:
lines 116–117 (and `_next_business_start`, line 76) call the configuration
getters afresh on every iteration instead of using one snapshot, so the
configuration observed by iteration `k` is `reads k`.  `businessLoop cfg`
is the special case of a configuration that does not change during the
call (`reads` constant). -/
def businessLoopReads (reads : Nat → BusinessHoursConfig) (endDt : Naive) :
    Nat → Nat → Naive → List (Naive × Naive)
  | 0, _, _ => []
  | fuel + 1, k, current =>
    if nlt current endDt then
      if 5 ≤ weekday current then
        businessLoopReads reads endDt fuel (k + 1)
          (_next_business_start (reads k) current)
      else
        let dayStart : Naive :=
          { day := current.day, tod := todOfHM (get_business_start (reads k)) }
        let dayEnd : Naive :=
          { day := current.day, tod := todOfHM (get_business_end (reads k)) }
        let c := if nlt current dayStart then dayStart else current
        if nle dayEnd c then
          businessLoopReads reads endDt fuel (k + 1)
            (_next_business_start (reads k) c)
        else
          (c, nmin dayEnd endDt) ::
            businessLoopReads reads endDt fuel (k + 1)
              (_next_business_start (reads k) c)
    else []

/-- With a configuration that never changes during the call, the
re-reading loop coincides with the snapshot loop `businessLoop`. -/
theorem businessLoopReads_const (cfg : BusinessHoursConfig) (endDt : Naive) :
    ∀ fuel k current,
      businessLoopReads (fun _ => cfg) endDt fuel k current =
        businessLoop cfg endDt fuel current := by
  intro fuel
  induction fuel with
  | zero => intro k current; rfl
  | succ n ih =>
    intro k current
    simp only [businessLoopReads, businessLoop, ih]

/-- Interleaved reads used to exhibit the mid-call configuration change:
the first loop iteration observes the default window, every later
iteration observes a 09:00–17:00 window published while the call is in
progress. -/
def midCallReads : Nat → BusinessHoursConfig :=
  fun k =>
    if k = 0 then _CONFIG
    else { start := ⟨9, 0, 0, 0⟩, «end» := ⟨17, 0, 0, 0⟩ }

example : businessLoopReads midCallReads ⟨738893, 36000000000⟩ 2 0 ⟨738892, 28800000000⟩ =
    [(⟨738892, 28800000000⟩, ⟨738892, 79200000000⟩),
     (⟨738893, 32400000000⟩, ⟨738893, 36000000000⟩)] := by decide

example : business_hours_breakdown _CONFIG ⟨738892, 28800000000⟩ ⟨738893, 36000000000⟩ =
    [(⟨738892, 28800000000⟩, ⟨738892, 79200000000⟩),
     (⟨738893, 25200000000⟩, ⟨738893, 36000000000⟩)] := by decide

/-- Parse exactly `n` decimal digits, accumulating their value. -/
def parseDigits : Nat → Nat → List Char → Option (Nat × List Char)
  | 0, acc, cs => some (acc, cs)
  | n + 1, acc, c :: cs =>
    if c.isDigit then parseDigits n (acc * 10 + (c.toNat - 48)) cs
    else none
  | _ + 1, _, [] => none

/-- Consume one expected character. -/
def expectChar (c : Char) : List Char → Option (List Char)
  | d :: cs => if d = c then some cs else none
  | [] => none

/-- Gregorian leap-year test, as in Python's `calendar`/`datetime`. -/
def isLeap (y : Nat) : Bool :=
  y % 4 = 0 && (y % 100 ≠ 0 || y % 400 = 0)

/-- Number of days in month `m` of year `y` (months 1..12). -/
def daysInMonth (y m : Nat) : Nat :=
  if m = 2 then (if isLeap y then 29 else 28)
  else if m = 4 ∨ m = 6 ∨ m = 9 ∨ m = 11 then 30
  else 31

/-- Days in year `y` before the first day of month `m`. -/
def daysBeforeMonth (y m : Nat) : Nat :=
  (List.range m).foldl (fun acc k => if 1 ≤ k then acc + daysInMonth y k else acc) 0

/-- Proleptic Gregorian ordinal of the date minus one, so that the result
modulo 7 is Python's `weekday()` (Monday = 0); mirrors
`datetime.date.toordinal`. -/
def dayNumber (y m d : Nat) : Int :=
  (365 * (y - 1) + (y - 1) / 4 + (y - 1) / 400 + daysBeforeMonth y m + d : Nat)
    - ((y - 1) / 100 : Nat) - 1

/-- Parse `YYYY-MM-DD` with range validation, as `date.fromisoformat`
requires (year 1..9999, month 1..12, day within the month). -/
def parseIsoDate (cs : List Char) : Option (Nat × Nat × Nat × List Char) := do
  let (y, cs) ← parseDigits 4 0 cs
  let cs ← expectChar '-' cs
  let (m, cs) ← parseDigits 2 0 cs
  let cs ← expectChar '-' cs
  let (d, cs) ← parseDigits 2 0 cs
  if 1 ≤ y ∧ y ≤ 9999 ∧ 1 ≤ m ∧ m ≤ 12 ∧ 1 ≤ d ∧ d ≤ daysInMonth y m then
    some (y, m, d, cs)
  else none

/-- Parse `HH[:MM[:SS[.fff[fff]]]]` with range validation; returns the
time of day in microseconds.  The fractional part is three or six digits,
as in the documented `fromisoformat` grammar. -/
def parseIsoTime (cs : List Char) : Option (Nat × List Char) := do
  let (h, cs) ← parseDigits 2 0 cs
  if h ≥ 24 then none else
  match expectChar ':' cs with
  | none => some (h * 3600000000, cs)
  | some cs => do
    let (m, cs) ← parseDigits 2 0 cs
    if m ≥ 60 then none else
    match expectChar ':' cs with
    | none => some ((h * 3600 + m * 60) * 1000000, cs)
    | some cs => do
      let (s, cs) ← parseDigits 2 0 cs
      if s ≥ 60 then none else
      let base := (h * 3600 + m * 60 + s) * 1000000
      match expectChar '.' cs with
      | none => some (base, cs)
      | some cs =>
        match parseDigits 6 0 cs with
        | some (f, cs) => some (base + f, cs)
        | none => do
          let (f, cs) ← parseDigits 3 0 cs
          some (base + f * 1000, cs)

/-- Parse the optional UTC-offset suffix `+HH:MM[:SS]` / `-HH:MM[:SS]`;
returns the offset in seconds.  Mirrors the offset grammar accepted by
`datetime.fromisoformat` (an offset must be strictly less than one day). -/
def parseIsoOffset (cs : List Char) : Option (Option Int × List Char) :=
  match cs with
  | [] => some (none, [])
  | c :: cs =>
    if c = '+' ∨ c = '-' then do
      let (h, cs) ← parseDigits 2 0 cs
      let cs ← expectChar ':' cs
      let (m, cs) ← parseDigits 2 0 cs
      if h ≥ 24 ∨ m ≥ 60 then none else
      let magnitude : Int := h * 3600 + m * 60
      match expectChar ':' cs with
      | none => some (some (if c = '-' then -magnitude else magnitude), cs)
      | some cs => do
        let (s, cs) ← parseDigits 2 0 cs
        if s ≥ 60 then none else
        let magnitude : Int := magnitude + s
        some (some (if c = '-' then -magnitude else magnitude), cs)
    else none

/-- Model of `datetime.fromisoformat` on the documented grammar
`YYYY-MM-DD[*HH[:MM[:SS[.fff[fff]]]][+HH:MM[:SS]]]` (the separator `*` is
any single character); returns the naive wall-clock value together with
the UTC offset in seconds, or `none` where Python raises `ValueError`. -/
def fromisoformat (s : String) : Option (Naive × Option Int) := do
  let (y, m, d, cs) ← parseIsoDate s.data
  match cs with
  | [] => some (⟨dayNumber y m d, 0⟩, none)
  | _sep :: cs => do
    let (tod, cs) ← parseIsoTime cs
    let (off, cs) ← parseIsoOffset cs
    match cs with
    | [] => some (⟨dayNumber y m d, tod⟩, off)
    | _ => none

/-- Model of `datetime.strptime(value, "%Y-%m-%d %H:%M")` on zero-padded
fields (the only shape this repository feeds it); returns the naive
wall-clock value, or `none` where Python raises `ValueError`. -/
def strptimeLegacy (s : String) : Option Naive := do
  let (y, m, d, cs) ← parseIsoDate s.data
  let cs ← expectChar ' ' cs
  let (h, cs) ← parseDigits 2 0 cs
  let cs ← expectChar ':' cs
  let (mi, cs) ← parseDigits 2 0 cs
  match cs with
  | [] =>
    if h ≥ 24 ∨ mi ≥ 60 then none
    else some ⟨dayNumber y m d, (h * 3600 + mi * 60) * 1000000⟩
  | _ => none

example : fromisoformat "2024-01-05T16:00:00" = some (⟨738889, 57600000000⟩, none) := by decide

example : fromisoformat "2024-01-01T10:00:00+00:00" = some (⟨738885, 36000000000⟩, some 0) := by
  decide

example : fromisoformat "2024-01-01T11:00:00+01:00" = some (⟨738885, 39600000000⟩, some 3600) := by
  decide

example : fromisoformat "bad" = none := by decide

example : fromisoformat "2025-08-15 22:01:00" = some (⟨739477, 79260000000⟩, none) := by decide

example : strptimeLegacy "2025-08-14 15:47" = some ⟨739476, 56820000000⟩ := by decide

/-- Python exceptions that `calculate_hours` and its helpers can raise. -/
inductive PyErr where
  | valueError (msg : String)
  | typeError (msg : String)
deriving DecidableEq, Repr

/-- Runtime values a caller can pass to `calculate_hours`.  A Python
`datetime` argument is its naive wall-clock part together with the UTC
offset of its `tzinfo` in seconds (`datetime.timezone` objects compare
equal exactly when their offsets are equal, so the offset is the
equality-relevant content of `tzinfo`); `intVal`/`boolVal` cover the
untyped values considered by the falsiness check. -/
inductive Value where
  | none
  | str (s : String)
  | dt (d : Naive) (off : Option Int)
  | intVal (n : Int)
  | boolVal (b : Bool)
deriving DecidableEq, Repr

/-- Python falsiness (`not value`) on the values of `Value`: `None`, the
empty string, the integer `0` and `False` are falsy; `datetime` objects
are always truthy. -/
def falsy : Value → Bool
  | .none => true
  | .str s => decide (s = "")
  | .dt _ _ => false
  | .intVal n => decide (n = 0)
  | .boolVal b => !b

/-- Embedding of the inner `_to_datetime` of `calculate_hours`: a
`datetime` passes through; a string is tried as ISO-8601 and then as the
legacy `"%Y-%m-%d %H:%M"` format, whose `ValueError` propagates; any
other type raises `TypeError`. -/
def _to_datetime (v : Value) : Except PyErr (Naive × Option Int) :=
  match v with
  | .dt d off => .ok (d, off)
  | .str s =>
    match fromisoformat s with
    | some r => .ok r
    | none =>
      match strptimeLegacy s with
      | some r => .ok (r, none)
      | none => .error (.valueError "time data does not match format")
  | _ => .error (.typeError "value must be datetime or ISO-8601 string")

/-- The guard `start_dt.tzinfo is not None and end_dt.tzinfo is not None
and start_dt.tzinfo != end_dt.tzinfo` of `calculate_hours`. -/
def tzMismatch (a b : Naive × Option Int) : Bool :=
  match a.2, b.2 with
  | some x, some y => decide (x ≠ y)
  | _, _ => false

/-- Instant of an offset-aware datetime on the UTC axis, in microseconds. -/
def utcMicro (d : Naive) (offSeconds : Int) : Int :=
  d.day * (usPerDay : Int) + (d.tod : Int) - offSeconds * 1000000

/-- Python `a < b` on two datetimes: naive pairs compare by wall clock,
aware pairs compare on the UTC axis, and a mixed naive/aware pair raises
`TypeError`. -/
def dtLt (a b : Naive × Option Int) : Except PyErr Bool :=
  match a.2, b.2 with
  | none, none => .ok (nlt a.1 b.1)
  | some x, some y => .ok (decide (utcMicro a.1 x < utcMicro b.1 y))
  | _, _ =>
    .error (.typeError "cannot compare offset-naive and offset-aware datetimes")

/-- Round half to even on the fraction `n / d` (`d` positive), modelling
Python `round` at integer precision: with `q` the floor and `r/d` the
fractional part, round down below one half, up above one half, and to the
even neighbour on a tie. -/
def roundHalfEven (n d : Int) : Int :=
  let q : Int := Int.fdiv n d
  let r : Int := Int.fmod n d
  if 2 * r < d then q
  else if d < 2 * r then q + 1
  else if q % 2 = 0 then q else q + 1

/-- The float returned by `calculate_hours` is rounded to two decimals,
so its value is represented exactly by an integer count of hundredths of
an hour: `round(delta.total_seconds() / 3600 + 1e-9, 2) * 100`.  With the
delta given in microseconds this is the half-even rounding of
`(delta * 10^9 + 36 * 10^8) / (36 * 10^15)`; the float arithmetic of the
source is modelled by this exact rational computation. -/
def roundedCentiHours (deltaMicro : Int) : Int :=
  roundHalfEven (deltaMicro * 1000000000 + 3600000000) 36000000000000000

/-- The tail of the `try` block of `calculate_hours`, after the timezone
guard: the reversed-range check `end_dt < start_dt` (whose comparison can
itself raise on a mixed naive/aware pair), then
`business_hours_delta`, conversion to hours and rounding with the `1e-9`
epsilon.  The result pair carries the returned value (in hundredths of an
hour) and whether an error was logged.  When the offsets are equal (the
only way aware values reach the delta), comparisons, `replace` and
subtraction on the aware values coincide with their wall-clock
counterparts, so the delta is taken on the naive parts. -/
def afterTzGuard (cfg : BusinessHoursConfig) (a b : Naive × Option Int) :
    Except PyErr (Int × Bool) :=
  match dtLt b a with
  | .error e => .error e
  | .ok true => .error (.valueError "end before start")
  | .ok false =>
    .ok (roundedCentiHours (business_hours_delta cfg a.1 b.1), false)

/-- `afterTzGuard` as observed by the caller of `calculate_hours`: an
escaping exception is absorbed by the outer handler, which logs and
returns `0.0`. -/
def runAfterTzGuard (cfg : BusinessHoursConfig) (a b : Naive × Option Int) :
    Int × Bool :=
  match afterTzGuard cfg a b with
  | .ok r => r
  | .error _ => (0, true)

/-- Body of the `try` block of `calculate_hours`: resolve both values,
then either take the timezone-mismatch early return (`logger.error` and
`return 0.0`, modelled as an `ok` result with the log flag set) or fall
through to `afterTzGuard`. -/
def calcTryBody (cfg : BusinessHoursConfig) (v1 v2 : Value) :
    Except PyErr (Int × Bool) :=
  match _to_datetime v1 with
  | .error e => .error e
  | .ok a =>
    match _to_datetime v2 with
    | .error e => .error e
    | .ok b =>
      if tzMismatch a b then .ok (0, true)
      else afterTzGuard cfg a b

/-- Embedding of `calculate_hours`: falsy arguments short-circuit to
`0.0` with nothing logged; otherwise the `try` body runs and any escaping
exception is logged (`logger.exception`) and absorbed into `0.0`.  The
first component is the returned float in hundredths of an hour, the
boolean records whether an error was logged. -/
def calculate_hours (cfg : BusinessHoursConfig) (v1 v2 : Value) : Int × Bool :=
  if falsy v1 || falsy v2 then (0, false)
  else
    match calcTryBody cfg v1 v2 with
    | .ok r => r
    | .error _ => (0, true)

example : calculate_hours _CONFIG (.str "2024-01-05T16:00:00")
    (.str "2024-01-08T10:00:00") = (900, false) := by decide

example : calculate_hours _CONFIG (.str "2025-08-14 15:47")
    (.str "2025-08-15 16:08") = (1535, false) := by decide

example : calculate_hours _CONFIG (.str "2024-01-08 07:00")
    (.str "2024-01-08 22:00") = (1500, false) := by decide

example : calculate_hours _CONFIG (.str "2024-01-01T10:00:00+00:00")
    (.str "2024-01-01T11:00:00+01:00") = (0, true) := by decide

example : calculate_hours _CONFIG (.str "bad") (.str "2024-01-01T10:00") =
    (0, true) := by decide

example : calculate_hours _CONFIG (.dt ⟨738886, 36000000000⟩ none)
    (.dt ⟨738886, 32400000000⟩ none) = (0, true) := by decide

/-- Follows the claim's wording, not the code: an endpoint is "missing"
when it is null (`None`) or the empty string.  Stated only to compare
with the code's actual falsiness test `falsy`. -/
def missingPerSpec (v : Value) : Bool :=
  v == Value.none || v == Value.str ""

/-- C1: on the interval Friday 2024-01-05 05:00 to 06:00 (default
07:00–22:00 window) the whole interval ends before that day's business
start, so it is entirely non-business time, yet the breakdown is not
empty: the loop snaps the cursor to 07:00 and emits the pair
(Fri 07:00, Fri 06:00), which is not a sub-interval of the input at all.
This refutes the claim that the result is empty whenever the whole
interval is non-business time and that every element is a maximal
business sub-interval of the input. -/
theorem business_hours_breakdown_nonbusiness_interval_bug :
    business_hours_breakdown _CONFIG ⟨738889, 18000000000⟩ ⟨738889, 21600000000⟩ =
      [(⟨738889, 25200000000⟩, ⟨738889, 21600000000⟩)] ∧
    nle ⟨738889, 21600000000⟩ ⟨738889, todOfHM (get_business_start _CONFIG)⟩ = true ∧
    weekday ⟨738889, 18000000000⟩ = 4 := by decide

/-- C2: on the same interval `business_hours_delta` sums the single
reversed segment of the breakdown and returns minus one hour, refuting
the claim that the returned duration is always non-negative. -/
theorem business_hours_delta_negative_bug :
    business_hours_delta _CONFIG ⟨738889, 18000000000⟩ ⟨738889, 21600000000⟩ =
      -3600000000 ∧
    business_hours_delta _CONFIG ⟨738889, 18000000000⟩ ⟨738889, 21600000000⟩ < 0 := by
  decide

/-- C3: the breakdown of Friday 05:00–06:00 contains a segment whose end
precedes its start, refuting the claimed invariant
`segmentStart < segmentEnd`. -/
theorem business_hours_breakdown_reversed_segment_bug :
    ((business_hours_breakdown _CONFIG ⟨738889, 18000000000⟩ ⟨738889, 21600000000⟩).any
      fun seg => nlt seg.2 seg.1) = true := by decide

/-- C4 (counterexample): the integer `0` is neither null nor an empty
string — by the claim's taxonomy it is an unsupported value type, so an
error should be logged — yet `calculate_hours` classifies it as falsy and
returns `0.0` with nothing logged. -/
theorem calculate_hours_unlogged_nonmissing_cex :
    missingPerSpec (Value.intVal 0) = false ∧
    calculate_hours _CONFIG (Value.intVal 0) (Value.dt ⟨738892, 0⟩ none) =
      (0, false) := by decide

/-- C4 (amended): `calculate_hours` never raises: a falsy endpoint
(`None`, `""`, `0`, `False`) short-circuits to `0.0` with no error
logged, every exception escaping the try body is absorbed into a logged
`0.0`, and a completed try body (including the logged timezone-mismatch
early return) is returned as computed. -/
theorem calculate_hours_tolerant_spec (cfg : BusinessHoursConfig) (v1 v2 : Value) :
    (falsy v1 = true ∨ falsy v2 = true → calculate_hours cfg v1 v2 = (0, false)) ∧
    (falsy v1 = false → falsy v2 = false → ∀ e : PyErr,
      calcTryBody cfg v1 v2 = .error e → calculate_hours cfg v1 v2 = (0, true)) ∧
    (falsy v1 = false → falsy v2 = false → ∀ r : Int × Bool,
      calcTryBody cfg v1 v2 = .ok r → calculate_hours cfg v1 v2 = r) := by
  refine ⟨?_, ?_, ?_⟩
  · rintro (h | h) <;> simp [calculate_hours, h]
  · intro h1 h2 e he
    simp [calculate_hours, h1, h2, he]
  · intro h1 h2 r hr
    simp [calculate_hours, h1, h2, hr]

/-- C4 (witness): a malformed string is reported as a logged `0.0`. -/
theorem calculate_hours_tolerant_spec_witness :
    calculate_hours _CONFIG (Value.str "bad") (Value.dt ⟨738892, 0⟩ none) =
      (0, true) :=
  (calculate_hours_tolerant_spec _CONFIG (Value.str "bad")
      (Value.dt ⟨738892, 0⟩ none)).2.1 rfl rfl
    (PyErr.valueError "time data does not match format") rfl

/-- C5: when both endpoints resolve with non-null UTC offsets, differing
offsets take the timezone-mismatch branch — a logged `0.0` with no
duration computed — while equal offsets skip the branch and fall through
to the duration computation; in particular, when the order check passes,
the rounded business-hours duration is returned with nothing logged. -/
theorem calculate_hours_timezone_mismatch_spec (cfg : BusinessHoursConfig)
    (v1 v2 : Value) (a b : Naive) (x y : Int)
    (h1 : falsy v1 = false) (h2 : falsy v2 = false)
    (ha : _to_datetime v1 = .ok (a, some x))
    (hb : _to_datetime v2 = .ok (b, some y)) :
    (x ≠ y → calculate_hours cfg v1 v2 = (0, true)) ∧
    (x = y → calculate_hours cfg v1 v2 = runAfterTzGuard cfg (a, some x) (b, some y)) ∧
    (x = y → dtLt (b, some y) (a, some x) = .ok false →
      calculate_hours cfg v1 v2 =
        (roundedCentiHours (business_hours_delta cfg a b), false)) := by
  refine ⟨?_, ?_, ?_⟩
  · intro hxy
    simp [calculate_hours, h1, h2, calcTryBody, ha, hb, tzMismatch, hxy]
  · intro hxy
    subst hxy
    simp only [calculate_hours, h1, h2, Bool.or_self, Bool.false_or, if_neg,
      Bool.false_eq_true, not_false_eq_true, calcTryBody, ha, hb]
    have hmm : tzMismatch (a, some x) (b, some x) = false := by
      simp [tzMismatch]
    rw [hmm]
    simp [runAfterTzGuard]
  · intro hxy hlt
    subst hxy
    have hmm : tzMismatch (a, some x) (b, some x) = false := by
      simp [tzMismatch]
    simp [calculate_hours, h1, h2, calcTryBody, ha, hb, hmm, afterTzGuard, hlt]

/-- C5 (witness): the mismatched-offset pair from the repository's tests
yields a logged `0.0`, and an equal-offset pair computes a duration. -/
theorem calculate_hours_timezone_mismatch_spec_witness :
    calculate_hours _CONFIG (Value.str "2024-01-01T10:00:00+00:00")
      (Value.str "2024-01-01T11:00:00+01:00") = (0, true) :=
  (calculate_hours_timezone_mismatch_spec _CONFIG
      (Value.str "2024-01-01T10:00:00+00:00")
      (Value.str "2024-01-01T11:00:00+01:00")
      ⟨738885, 36000000000⟩ ⟨738885, 39600000000⟩ 0 3600
      rfl rfl rfl rfl).1 (by decide)

/-- C6: `hours_breakdown` is `(0, 0)` when `start >= end`, and otherwise
returns the business delta paired with the remainder of the total, the
two components summing exactly to `end - start`. -/
theorem hours_breakdown_spec (cfg : BusinessHoursConfig) (s e : Naive) :
    (nle e s = true → hours_breakdown cfg s e = (0, 0)) ∧
    (nle e s = false →
      hours_breakdown cfg s e =
        (business_hours_delta cfg s e,
          nsub e s - business_hours_delta cfg s e) ∧
      (hours_breakdown cfg s e).1 + (hours_breakdown cfg s e).2 = nsub e s) := by
  constructor
  · intro h
    simp [hours_breakdown, h]
  · intro h
    refine ⟨by simp [hours_breakdown, h], ?_⟩
    simp [hours_breakdown, h]

/-- C6 (witness): the Friday-afternoon-to-Monday-morning interval of the
repository's tests splits into business and after-hours parts that sum to
the total span. -/
theorem hours_breakdown_spec_witness :
    hours_breakdown _CONFIG ⟨738889, 57600000000⟩ ⟨738892, 36000000000⟩ =
      (business_hours_delta _CONFIG ⟨738889, 57600000000⟩ ⟨738892, 36000000000⟩,
        nsub ⟨738892, 36000000000⟩ ⟨738889, 57600000000⟩ -
          business_hours_delta _CONFIG ⟨738889, 57600000000⟩ ⟨738892, 36000000000⟩) :=
  ((hours_breakdown_spec _CONFIG ⟨738889, 57600000000⟩
      ⟨738892, 36000000000⟩).2 (by decide)).1

/-- C7: `set_business_hours` fails exactly when `start >= end`; on
failure the previous configuration is unchanged, on success the new pair
is stored, a valid configuration can never be replaced by an invalid one
(so the getters never observe `start >= end`), and the default
configuration is valid. -/
theorem set_business_hours_spec (cfg : BusinessHoursConfig) (a b : PyTime) :
    ((runSetBusinessHours cfg a b).2.isSome = true ↔ timeGe a b = true) ∧
    (timeGe a b = true → (runSetBusinessHours cfg a b).1 = cfg) ∧
    (timeGe a b = false →
      (runSetBusinessHours cfg a b).1 = { start := a, «end» := b }) ∧
    (validConfig cfg = true →
      timeLt (get_business_start (runSetBusinessHours cfg a b).1)
        (get_business_end (runSetBusinessHours cfg a b).1) = true) ∧
    validConfig _CONFIG = true := by
  by_cases h : timeGe a b = true
  · simp [runSetBusinessHours, set_business_hours, h, validConfig,
      get_business_start, get_business_end]
    decide
  · have h' : timeLt a b = true := by
      simpa [timeGe] using h
    simp [runSetBusinessHours, set_business_hours, h, h', validConfig,
      get_business_start, get_business_end]
    decide

/-- C7 (witness): a reversed pair is rejected and leaves the default
configuration in place. -/
theorem set_business_hours_spec_witness :
    (runSetBusinessHours _CONFIG ⟨17, 0, 0, 0⟩ ⟨9, 0, 0, 0⟩).1 = _CONFIG :=
  (set_business_hours_spec _CONFIG ⟨17, 0, 0, 0⟩ ⟨9, 0, 0, 0⟩).2.1 (by decide)

/-- C8 (counterexample): the configuration update is not an atomic
publish and the breakdown does not use a single snapshot.  Between the
two field assignments of `set_business_hours(time(9), time(17))` starting
from the default window, a reader observes (09:00, 22:00) — neither the
old pair nor the new pair — and a breakdown whose second iteration reads
a configuration changed mid-call differs from the single-snapshot run on
the same inputs. -/
theorem config_torn_read_cex :
    (get_business_start (setBusinessHoursStep1 _CONFIG ⟨9, 0, 0, 0⟩),
        get_business_end (setBusinessHoursStep1 _CONFIG ⟨9, 0, 0, 0⟩)) ≠
      (get_business_start _CONFIG, get_business_end _CONFIG) ∧
    (get_business_start (setBusinessHoursStep1 _CONFIG ⟨9, 0, 0, 0⟩),
        get_business_end (setBusinessHoursStep1 _CONFIG ⟨9, 0, 0, 0⟩)) ≠
      (⟨9, 0, 0, 0⟩, ⟨17, 0, 0, 0⟩) ∧
    businessLoopReads midCallReads ⟨738893, 36000000000⟩ 2 0 ⟨738892, 28800000000⟩ ≠
      business_hours_breakdown _CONFIG ⟨738892, 28800000000⟩ ⟨738893, 36000000000⟩ := by
  decide

/-- C8 (amended): a successful `set_business_hours` publishes the pair as
two separate field writes, start first, so a reader scheduled between
them observes the new start paired with the old end; and the breakdown
loop re-reads the configuration on every iteration — it coincides with a
single-snapshot run exactly in the special case that every read returns
the same configuration. -/
theorem config_two_step_publish_spec (cfg : BusinessHoursConfig) (a b : PyTime)
    (h : timeGe a b = false) :
    set_business_hours a b cfg =
      .ok (setBusinessHoursStep2 (setBusinessHoursStep1 cfg a) b) ∧
    get_business_start (setBusinessHoursStep1 cfg a) = a ∧
    get_business_end (setBusinessHoursStep1 cfg a) = cfg.«end» ∧
    (∀ endDt fuel k current,
      businessLoopReads (fun _ => cfg) endDt fuel k current =
        businessLoop cfg endDt fuel current) := by
  refine ⟨?_, rfl, rfl, fun endDt fuel k current => businessLoopReads_const cfg endDt fuel k current⟩
  simp [set_business_hours, h, setBusinessHoursStep1, setBusinessHoursStep2]

/-- C8 (witness): the two-step publish of the 09:00–17:00 window from the
default configuration. -/
theorem config_two_step_publish_spec_witness :
    set_business_hours ⟨9, 0, 0, 0⟩ ⟨17, 0, 0, 0⟩ _CONFIG =
      .ok (setBusinessHoursStep2 (setBusinessHoursStep1 _CONFIG ⟨9, 0, 0, 0⟩)
        ⟨17, 0, 0, 0⟩) :=
  (config_two_step_publish_spec _CONFIG ⟨9, 0, 0, 0⟩ ⟨17, 0, 0, 0⟩ (by decide)).1

/-- C9: when exactly one endpoint resolves to an offset-aware timestamp,
the timezone-mismatch guard does not fire, the order comparison raises
`TypeError`, and the catch-all absorbs it into a logged `0.0`. -/
theorem calculate_hours_mixed_awareness_spec (cfg : BusinessHoursConfig)
    (v1 v2 : Value) (a b : Naive) (oa ob : Option Int)
    (h1 : falsy v1 = false) (h2 : falsy v2 = false)
    (ha : _to_datetime v1 = .ok (a, oa)) (hb : _to_datetime v2 = .ok (b, ob))
    (hmix : oa.isSome ≠ ob.isSome) :
    calculate_hours cfg v1 v2 = (0, true) ∧
    tzMismatch (a, oa) (b, ob) = false ∧
    dtLt (b, ob) (a, oa) =
      .error (.typeError "cannot compare offset-naive and offset-aware datetimes") := by
  cases oa with
  | none =>
    cases ob with
    | none => simp at hmix
    | some y =>
      refine ⟨?_, rfl, rfl⟩
      simp [calculate_hours, h1, h2, calcTryBody, ha, hb, tzMismatch,
        afterTzGuard, dtLt]
  | some x =>
    cases ob with
    | none =>
      refine ⟨?_, rfl, rfl⟩
      simp [calculate_hours, h1, h2, calcTryBody, ha, hb, tzMismatch,
        afterTzGuard, dtLt]
    | some y => simp at hmix

/-- C9 (witness): a naive start paired with a UTC-aware end yields a
logged `0.0`. -/
theorem calculate_hours_mixed_awareness_spec_witness :
    calculate_hours _CONFIG (Value.dt ⟨738886, 36000000000⟩ none)
      (Value.dt ⟨738886, 39600000000⟩ (some 0)) = (0, true) :=
  (calculate_hours_mixed_awareness_spec _CONFIG
      (Value.dt ⟨738886, 36000000000⟩ none)
      (Value.dt ⟨738886, 39600000000⟩ (some 0))
      ⟨738886, 36000000000⟩ ⟨738886, 39600000000⟩ none (some 0)
      rfl rfl rfl rfl (by decide)).1

/-- C10: `calculate_hours` tests its endpoints for Python falsiness —
`None`, the empty string, the integer `0` and `False` — and any falsy
endpoint short-circuits to `0.0` with nothing parsed or logged,
regardless of the other argument. -/
theorem calculate_hours_falsy_spec (cfg : BusinessHoursConfig) (v1 v2 : Value) :
    (falsy v1 = true ∨ falsy v2 = true → calculate_hours cfg v1 v2 = (0, false)) ∧
    (falsy v1 = true ↔
      (v1 = Value.none ∨ v1 = Value.str "" ∨ v1 = Value.intVal 0 ∨
        v1 = Value.boolVal false)) := by
  constructor
  · rintro (h | h) <;> simp [calculate_hours, h]
  · cases v1 <;> simp [falsy]

/-- C10 (witness): the integer `0` as the start endpoint returns `0.0`
with nothing logged even though the other argument is garbage. -/
theorem calculate_hours_falsy_spec_witness :
    calculate_hours _CONFIG (Value.intVal 0) (Value.str "garbage") = (0, false) :=
  (calculate_hours_falsy_spec _CONFIG (Value.intVal 0)
      (Value.str "garbage")).1 (Or.inl (by decide))
